import Mathlib

/-!
Verification of the A1 robot base-velocity estimator
(`motion_imitation/robots/a1_robot_velocity_estimator.py`).

The estimator fuses accelerometer dead-reckoning with leg-kinematics
velocity measurements through a 3-dimensional linear Kalman filter and
smooths the posterior with per-axis moving-average filters.  All numeric
state is embedded over `ℚ` (the Python code works over IEEE floats; every
claim checked here is about the exact algebraic recursion, which `ℚ`
captures faithfully).
-/

attribute [local semireducible] Rat.add Rat.mul Rat.inv Rat.sub Rat.ofScientific

/-- A 3-vector of rationals (`np.array` of shape (3,)). -/
structure Vec3 where
  vx : ℚ
  vy : ℚ
  vz : ℚ
deriving DecidableEq

def Vec3.zero : Vec3 := ⟨0, 0, 0⟩

def Vec3.add (a b : Vec3) : Vec3 := ⟨a.vx + b.vx, a.vy + b.vy, a.vz + b.vz⟩

def Vec3.sub (a b : Vec3) : Vec3 := ⟨a.vx - b.vx, a.vy - b.vy, a.vz - b.vz⟩

def Vec3.neg (a : Vec3) : Vec3 := ⟨-a.vx, -a.vy, -a.vz⟩

def Vec3.smul (c : ℚ) (a : Vec3) : Vec3 := ⟨c * a.vx, c * a.vy, c * a.vz⟩

def Vec3.dot (a b : Vec3) : ℚ := a.vx * b.vx + a.vy * b.vy + a.vz * b.vz

/-- A 3×3 matrix of rationals, stored as its three rows. -/
structure Mat3 where
  r0 : Vec3
  r1 : Vec3
  r2 : Vec3
deriving DecidableEq

def Mat3.id : Mat3 := ⟨⟨1, 0, 0⟩, ⟨0, 1, 0⟩, ⟨0, 0, 1⟩⟩

def Mat3.zero : Mat3 := ⟨Vec3.zero, Vec3.zero, Vec3.zero⟩

def Mat3.add (a b : Mat3) : Mat3 :=
  ⟨Vec3.add a.r0 b.r0, Vec3.add a.r1 b.r1, Vec3.add a.r2 b.r2⟩

def Mat3.sub (a b : Mat3) : Mat3 :=
  ⟨Vec3.sub a.r0 b.r0, Vec3.sub a.r1 b.r1, Vec3.sub a.r2 b.r2⟩

def Mat3.smulM (c : ℚ) (a : Mat3) : Mat3 :=
  ⟨Vec3.smul c a.r0, Vec3.smul c a.r1, Vec3.smul c a.r2⟩

def Mat3.transpose (a : Mat3) : Mat3 :=
  ⟨⟨a.r0.vx, a.r1.vx, a.r2.vx⟩, ⟨a.r0.vy, a.r1.vy, a.r2.vy⟩, ⟨a.r0.vz, a.r1.vz, a.r2.vz⟩⟩

def Mat3.mulVec (a : Mat3) (v : Vec3) : Vec3 :=
  ⟨Vec3.dot a.r0 v, Vec3.dot a.r1 v, Vec3.dot a.r2 v⟩

def Mat3.mul (a b : Mat3) : Mat3 :=
  let bt := Mat3.transpose b
  ⟨⟨Vec3.dot a.r0 bt.r0, Vec3.dot a.r0 bt.r1, Vec3.dot a.r0 bt.r2⟩,
   ⟨Vec3.dot a.r1 bt.r0, Vec3.dot a.r1 bt.r1, Vec3.dot a.r1 bt.r2⟩,
   ⟨Vec3.dot a.r2 bt.r0, Vec3.dot a.r2 bt.r1, Vec3.dot a.r2 bt.r2⟩⟩

/-- Determinant of a 3×3 matrix by cofactor expansion along the first row. -/
def Mat3.det (a : Mat3) : ℚ :=
  a.r0.vx * (a.r1.vy * a.r2.vz - a.r1.vz * a.r2.vy)
    - a.r0.vy * (a.r1.vx * a.r2.vz - a.r1.vz * a.r2.vx)
    + a.r0.vz * (a.r1.vx * a.r2.vy - a.r1.vy * a.r2.vx)

/-- Adjugate (transpose of the cofactor matrix) of a 3×3 matrix. -/
def Mat3.adjugate (a : Mat3) : Mat3 :=
  ⟨⟨a.r1.vy * a.r2.vz - a.r1.vz * a.r2.vy,
    a.r0.vz * a.r2.vy - a.r0.vy * a.r2.vz,
    a.r0.vy * a.r1.vz - a.r0.vz * a.r1.vy⟩,
   ⟨a.r1.vz * a.r2.vx - a.r1.vx * a.r2.vz,
    a.r0.vx * a.r2.vz - a.r0.vz * a.r2.vx,
    a.r0.vz * a.r1.vx - a.r0.vx * a.r1.vz⟩,
   ⟨a.r1.vx * a.r2.vy - a.r1.vy * a.r2.vx,
    a.r0.vy * a.r2.vx - a.r0.vx * a.r2.vy,
    a.r0.vx * a.r1.vy - a.r0.vy * a.r1.vx⟩⟩

/-- Inverse of a 3×3 matrix, `(1/det) · adjugate` (over ℚ, `1/0 = 0`, so a
singular argument yields the zero matrix; no claim exercises that case). -/
def Mat3.inv (a : Mat3) : Mat3 := Mat3.smulM (1 / Mat3.det a) (Mat3.adjugate a)

/-- State of the external `filterpy.kalman.KalmanFilter` instance held by the
estimator: state vector `x`, covariance `P`, process noise `Q`, measurement
noise `R`, measurement matrix `H`, transition matrix `F`, control matrix `B`. -/
structure KalmanFilterState where
  x : Vec3
  P : Mat3
  Q : Mat3
  R : Mat3
  H : Mat3
  F : Mat3
  B : Mat3
deriving DecidableEq

/-- Modelled from the spec: the external Kalman library's Predict step
(§4.1), `x ← F·x + B·u`, `P ← F·P·Fᵀ + Q` (the library itself is not part
of this repository's sources). -/
def kfPredict (f : KalmanFilterState) (u : Vec3) : KalmanFilterState :=
  { f with
    x := Vec3.add (Mat3.mulVec f.F f.x) (Mat3.mulVec f.B u)
    P := Mat3.add (Mat3.mul (Mat3.mul f.F f.P) (Mat3.transpose f.F)) f.Q }

/-- Modelled from the spec: the external Kalman library's Update step
(§4.1), innovation `y = z − H·x`, innovation covariance `S = H·P·Hᵀ + R`,
gain `K = P·Hᵀ·S⁻¹`, then `x ← x + K·y`, `P ← (I − K·H)·P`. -/
def kfUpdate (f : KalmanFilterState) (z : Vec3) : KalmanFilterState :=
  let y := Vec3.sub z (Mat3.mulVec f.H f.x)
  let S := Mat3.add (Mat3.mul (Mat3.mul f.H f.P) (Mat3.transpose f.H)) f.R
  let K := Mat3.mul (Mat3.mul f.P (Mat3.transpose f.H)) (Mat3.inv S)
  { f with
    x := Vec3.add f.x (Mat3.mulVec K y)
    P := Mat3.mul (Mat3.sub Mat3.id (Mat3.mul K f.H)) f.P }

/-- Modelled from the spec: `MovingWindowFilter` from
`motion_imitation/utilities/moving_window_filter.py` (not under the given
sources): a fixed-capacity buffer of recent scalar samples with a running
sum for O(1) averaging (§4.3). -/
structure MovingWindowFilter where
  window_size : ℤ
  value_buffer : List ℚ
  running_sum : ℚ
deriving DecidableEq

/-- Modelled from the spec: a freshly constructed `MovingWindowFilter` holds
an empty buffer and a zero running sum. -/
def freshMovingWindowFilter (window_size : ℤ) : MovingWindowFilter :=
  ⟨window_size, [], 0⟩

/-- Modelled from the spec: `calculate_average(new_sample)` appends the
sample (evicting the oldest once at capacity), maintains the running sum,
and returns the arithmetic mean of the currently held samples (§4.3). -/
def calculateAverage (m : MovingWindowFilter) (new_sample : ℚ) :
    MovingWindowFilter × ℚ :=
  let extended := m.value_buffer ++ [new_sample]
  let kept :=
    if (extended.length : ℤ) > m.window_size then
      (extended.tail, m.running_sum + new_sample - extended.headD 0)
    else (extended, m.running_sum + new_sample)
  let avg := kept.2 / (kept.1.length : ℚ)
  (⟨m.window_size, kept.1, kept.2⟩, avg)

/-- Per-tick readings supplied by the robot interface (§6):
`GetBaseAcceleration`, the rotation matrix derived from
`GetBaseOrientation` via `getMatrixFromQuaternion`, `GetFootContacts`,
`ComputeJacobian` per leg, and `GetMotorVelocities` as an ordered sequence
sliced in fixed groups of 3. -/
structure SensorData where
  acc : Vec3
  rot_mat : Mat3
  foot_contact : ℕ → Bool
  jacobian : ℕ → Mat3
  motor_velocities : ℕ → ℚ

/-- The mutable state of a `VelocityEstimator` instance: the Kalman filter,
the constructor parameters it retains, the three per-axis smoothing
filters, the cached smoothed estimate, the last-seen timestamp, and the
robot handle's nominal control period `time_step`. -/
structure VEState where
  filter : KalmanFilterState
  initial_variance : ℚ
  window_size : ℤ
  moving_window_filter_x : MovingWindowFilter
  moving_window_filter_y : MovingWindowFilter
  moving_window_filter_z : MovingWindowFilter
  estimated_velocity : Vec3
  last_timestamp : ℚ
  time_step : ℚ
deriving DecidableEq

/-- The field assignments of `VelocityEstimator.__init__`: zero state,
`P = I·initial_variance`, `Q = I·accelerometer_variance`,
`R = I·sensor_variance`, `H = F = B = I`, three fresh window filters,
zero cached estimate, zero last timestamp. -/
def mkVEState (time_step accelerometer_variance sensor_variance
    initial_variance : ℚ) (moving_window_filter_size : ℤ) : VEState :=
  { filter :=
      { x := Vec3.zero
        P := Mat3.smulM initial_variance Mat3.id
        Q := Mat3.smulM accelerometer_variance Mat3.id
        R := Mat3.smulM sensor_variance Mat3.id
        H := Mat3.id
        F := Mat3.id
        B := Mat3.id }
    initial_variance := initial_variance
    window_size := moving_window_filter_size
    moving_window_filter_x := freshMovingWindowFilter moving_window_filter_size
    moving_window_filter_y := freshMovingWindowFilter moving_window_filter_size
    moving_window_filter_z := freshMovingWindowFilter moving_window_filter_size
    estimated_velocity := Vec3.zero
    last_timestamp := 0
    time_step := time_step }

/-- Construction of a `VelocityEstimator`.  The `__init__` body itself
performs no parameter validation; the only rejection path is the window
filters' constructor.  Modelled from the spec: `MovingWindowFilter`
construction rejects a non-positive window size ("reject at construction
time", §7) — that code is not under the given sources. -/
def mkVelocityEstimator (time_step accelerometer_variance sensor_variance
    initial_variance : ℚ) (moving_window_filter_size : ℤ) : Option VEState :=
  if moving_window_filter_size ≤ 0 then none
  else some (mkVEState time_step accelerometer_variance sensor_variance
    initial_variance moving_window_filter_size)

/-- `VelocityEstimator.reset`: zero filter state, covariance
`I·initial_variance`, three fresh window filters, zero last timestamp.
All other fields (in particular `Q`, `R`, `H`, `F`, `B` and the cached
`estimated_velocity`) are untouched. -/
def reset (s : VEState) : VEState :=
  { s with
    filter := { s.filter with
      x := Vec3.zero
      P := Mat3.smulM s.initial_variance Mat3.id }
    moving_window_filter_x := freshMovingWindowFilter s.window_size
    moving_window_filter_y := freshMovingWindowFilter s.window_size
    moving_window_filter_z := freshMovingWindowFilter s.window_size
    last_timestamp := 0 }

/-- `VelocityEstimator._compute_delta_time`: if the stored timestamp equals
the sentinel `0`, return the robot's nominal `time_step`, otherwise the
difference to the previous timestamp; always record `current_time`.
Returns `(delta_time_s, new last_timestamp)`. -/
def computeDeltaTime (s : VEState) (current_time : ℚ) : ℚ × ℚ :=
  if s.last_timestamp = 0 then (s.time_step, current_time)
  else (current_time - s.last_timestamp, current_time)

/-- The three joint velocities of one leg:
`GetMotorVelocities()[leg_id * 3 : (leg_id + 1) * 3]`. -/
def jointVelocities (d : SensorData) (leg_id : ℕ) : Vec3 :=
  ⟨d.motor_velocities (leg_id * 3), d.motor_velocities (leg_id * 3 + 1),
   d.motor_velocities (leg_id * 3 + 2)⟩

/-- The `observed_velocities` list built by `VelocityEstimator.update`: for
each `leg_id in range(4)` with a true contact flag, append
`rot_mat · (−(jacobian · joint_velocities))`. -/
def observedVelocities (d : SensorData) : List Vec3 :=
  ([0, 1, 2, 3] : List ℕ).filterMap (fun leg_id =>
    if d.foot_contact leg_id then
      some (Mat3.mulVec d.rot_mat
        (Vec3.neg (Mat3.mulVec (d.jacobian leg_id) (jointVelocities d leg_id))))
    else none)

/-- `np.mean(·, axis=0)`: componentwise arithmetic mean of a list of
3-vectors. -/
def meanVec (l : List Vec3) : Vec3 :=
  Vec3.smul (1 / (l.length : ℚ)) (l.foldl Vec3.add Vec3.zero)

/-- `VelocityEstimator.update(current_time)`: compute the elapsed time,
calibrate the accelerometer reading
(`rot_mat.dot(sensor_acc) + [0, 0, -9.8]`), predict with control input
`calibrated_acc * delta_time_s`, correct with the mean leg-derived
velocity when at least one leg is in contact, then smooth each axis and
cache the result. -/
def velUpdate (s : VEState) (current_time : ℚ) (d : SensorData) : VEState :=
  let dt := computeDeltaTime s current_time
  let delta_time_s := dt.1
  let calibrated_acc := Vec3.add (Mat3.mulVec d.rot_mat d.acc) ⟨0, 0, -(49/5)⟩
  let predicted := kfPredict s.filter (Vec3.smul delta_time_s calibrated_acc)
  let obs := observedVelocities d
  let corrected := if obs.isEmpty then predicted else kfUpdate predicted (meanVec obs)
  let sx := calculateAverage s.moving_window_filter_x corrected.x.vx
  let sy := calculateAverage s.moving_window_filter_y corrected.x.vy
  let sz := calculateAverage s.moving_window_filter_z corrected.x.vz
  { s with
    filter := corrected
    moving_window_filter_x := sx.1
    moving_window_filter_y := sy.1
    moving_window_filter_z := sz.1
    estimated_velocity := ⟨sx.2, sy.2, sz.2⟩
    last_timestamp := dt.2 }

/-- The spec sentence's calibration formula, stated verbatim for comparison
with the source: "calibrated = R·a_sensor − (0, 0, −9.8)". -/
def specCalibratedAcc (d : SensorData) : Vec3 :=
  Vec3.sub (Mat3.mulVec d.rot_mat d.acc) ⟨0, 0, -(49/5)⟩

/-- The spec's recursion for the contact-leg measurement: the unweighted
arithmetic mean, over the contacting legs, of
`rotation_matrix · (−(Jacobian(leg) · joint_velocities))` with the joint
velocities sliced per leg in fixed groups of 3. -/
def specLegMeasurement (d : SensorData) : Vec3 :=
  meanVec (([0, 1, 2, 3] : List ℕ).filterMap (fun leg_id =>
    if d.foot_contact leg_id then
      some (Mat3.mulVec d.rot_mat (Vec3.neg (Mat3.mulVec (d.jacobian leg_id)
        ⟨d.motor_velocities (leg_id * 3), d.motor_velocities (leg_id * 3 + 1),
         d.motor_velocities (leg_id * 3 + 2)⟩)))
    else none))

/-- Sensor readings with identity attitude, zero accelerometer reading and
no leg in contact. -/
def noContactData : SensorData :=
  { acc := Vec3.zero
    rot_mat := Mat3.id
    foot_contact := fun _ => false
    jacobian := fun _ => Mat3.id
    motor_velocities := fun _ => 0 }

/-- Sensor readings for the §8 scenario: calibrated acceleration zero
(accelerometer reads the gravity reaction `(0,0,9.8)` at identity
attitude), leg 0 in contact with identity Jacobian and joint velocities
`(-1,0,0)`, so the leg-derived measurement is `(1,0,0)`. -/
def scenarioData : SensorData :=
  { acc := ⟨0, 0, 49/5⟩
    rot_mat := Mat3.id
    foot_contact := fun leg_id => leg_id == 0
    jacobian := fun _ => Mat3.id
    motor_velocities := fun j => if j = 0 then -1 else 0 }

/-- The §8 scenario estimator: accelerometer variance 0.1, sensor variance
0.1, initial covariance 0.1, window size 120, control period 0.01. -/
def scenarioStart : VEState := mkVEState (1/100) (1/10) (1/10) (1/10) 120

def scenarioTick1 : VEState := velUpdate scenarioStart (1/100) scenarioData

def scenarioTick2 : VEState := velUpdate scenarioTick1 (2/100) scenarioData

def scenarioTick3 : VEState := velUpdate scenarioTick2 (3/100) scenarioData

def scenarioTick4 : VEState := velUpdate scenarioTick3 (4/100) scenarioData

def scenarioTick5 : VEState := velUpdate scenarioTick4 (5/100) scenarioData

/-!
A minimal heap model for the aliasing behaviour of the
`estimated_velocity` property: `np.ndarray` values are cells in a heap of
allocated arrays, addressed by index; `.copy()` allocates a fresh cell.
-/

/-- Read the array stored at reference `r`. -/
def heapRead (heap : List Vec3) (r : ℕ) : Vec3 := heap.getD r Vec3.zero

/-- In-place mutation of the array stored at reference `r`. -/
def heapWrite (heap : List Vec3) (r : ℕ) (v : Vec3) : List Vec3 := heap.set r v

/-- The `estimated_velocity` property body,
`return self._estimated_velocity.copy()`: allocate a fresh array holding
the current contents of the internal cell `r` and return the new heap
together with the fresh reference. -/
def estimatedVelocityRead (heap : List Vec3) (r : ℕ) : List Vec3 × ℕ :=
  (heap ++ [heapRead heap r], heap.length)

/-! ## Helper lemmas -/

theorem velUpdate_filter_eq (s : VEState) (t : ℚ) (d : SensorData) :
    (velUpdate s t d).filter =
      (if (observedVelocities d).isEmpty then
        kfPredict s.filter (Vec3.smul (computeDeltaTime s t).1
          (Vec3.add (Mat3.mulVec d.rot_mat d.acc) ⟨0, 0, -(49/5)⟩))
      else
        kfUpdate (kfPredict s.filter (Vec3.smul (computeDeltaTime s t).1
          (Vec3.add (Mat3.mulVec d.rot_mat d.acc) ⟨0, 0, -(49/5)⟩)))
          (meanVec (observedVelocities d))) := rfl

theorem observedVelocities_eq_nil (d : SensorData)
    (h : ∀ leg_id, leg_id < 4 → d.foot_contact leg_id = false) :
    observedVelocities d = [] := by
  simp [observedVelocities, h 0 (by norm_num), h 1 (by norm_num),
    h 2 (by norm_num), h 3 (by norm_num)]

theorem observedVelocities_ne_nil (d : SensorData) (leg_id : ℕ)
    (h4 : leg_id < 4) (hc : d.foot_contact leg_id = true) :
    observedVelocities d ≠ [] := by
  have hl : leg_id = 0 ∨ leg_id = 1 ∨ leg_id = 2 ∨ leg_id = 3 := by omega
  refine List.ne_nil_of_mem (a := Mat3.mulVec d.rot_mat
    (Vec3.neg (Mat3.mulVec (d.jacobian leg_id) (jointVelocities d leg_id)))) ?_
  refine List.mem_filterMap.mpr ⟨leg_id, ?_, by simp [hc]⟩
  rcases hl with h|h|h|h <;> subst h <;> simp

/-! ## Claims -/

/-- C3: whenever all four foot-contact flags are false, the
measurement-update step is skipped entirely: the filter state and
covariance after `update(current_time)` are exactly the result of the
predict step alone, with no fallback measurement and no error; since this
holds for an arbitrary starting state it holds across any contiguous span
of zero-contact ticks. -/
theorem update_without_contact_is_pure_prediction
    (s : VEState) (t : ℚ) (d : SensorData)
    (h : ∀ leg_id, leg_id < 4 → d.foot_contact leg_id = false) :
    (velUpdate s t d).filter =
      kfPredict s.filter (Vec3.smul (computeDeltaTime s t).1
        (Vec3.add (Mat3.mulVec d.rot_mat d.acc) ⟨0, 0, -(49/5)⟩)) := by
  rw [velUpdate_filter_eq, observedVelocities_eq_nil d h]
  rfl

theorem update_without_contact_is_pure_prediction_witness :
    (∀ leg_id, leg_id < 4 → noContactData.foot_contact leg_id = false) ∧
    (velUpdate scenarioStart 1 noContactData).filter =
      kfPredict scenarioStart.filter
        (Vec3.smul (computeDeltaTime scenarioStart 1).1
          (Vec3.add (Mat3.mulVec noContactData.rot_mat noContactData.acc)
            ⟨0, 0, -(49/5)⟩)) :=
  ⟨fun _ _ => rfl,
   update_without_contact_is_pure_prediction scenarioStart 1 noContactData
     (fun _ _ => rfl)⟩

/-- C9: the "unset" timestamp sentinel is the value `0`, so an `update`
call at `current_time = 0` stores the sentinel back into
`last_timestamp`; the immediately following call is therefore treated as
a first call again and uses the nominal control period `time_step`
instead of the true elapsed time. -/
theorem zero_timestamp_reactivates_sentinel
    (s : VEState) (d : SensorData) (next_time : ℚ) :
    (velUpdate s 0 d).last_timestamp = 0 ∧
    (computeDeltaTime (velUpdate s 0 d) next_time).1 = s.time_step := by
  have hlast : (velUpdate s 0 d).last_timestamp = (computeDeltaTime s 0).2 := rfl
  have hts : (velUpdate s 0 d).time_step = s.time_step := rfl
  have h2 : (computeDeltaTime s 0).2 = 0 := by
    unfold computeDeltaTime
    split <;> rfl
  refine ⟨hlast.trans h2, ?_⟩
  rw [computeDeltaTime, if_pos (hlast.trans h2), hts]

/-- C10: `reset()` does not touch the cached `_estimated_velocity` field,
so reading `estimated_velocity` right after a reset returns the last
smoothed value cached before the reset — in particular a nonzero cached
value does not revert to the zero vector installed at construction. -/
theorem reset_preserves_cached_estimate (s : VEState) :
    (reset s).estimated_velocity = s.estimated_velocity ∧
    (s.estimated_velocity ≠ Vec3.zero →
      (reset s).estimated_velocity ≠ Vec3.zero) := by
  exact ⟨rfl, fun h => h⟩

theorem reset_preserves_cached_estimate_witness :
    scenarioTick1.estimated_velocity ≠ Vec3.zero ∧
    (reset scenarioTick1).estimated_velocity ≠ Vec3.zero :=
  ⟨by decide, (reset_preserves_cached_estimate scenarioTick1).2 (by decide)⟩

/-- C1: whenever at least one leg reports contact, the measurement fed to
the Kalman update step is exactly the spec's recursion: the unweighted
arithmetic mean, over contacting legs, of
`rotation_matrix · (−(Jacobian(leg) · joint_velocities))`, with the joint
velocities sliced from `GetMotorVelocities()` in fixed groups of 3. -/
theorem update_measurement_is_mean_of_leg_velocities
    (s : VEState) (t : ℚ) (d : SensorData)
    (h : ∃ leg_id, leg_id < 4 ∧ d.foot_contact leg_id = true) :
    (velUpdate s t d).filter =
      kfUpdate
        (kfPredict s.filter (Vec3.smul (computeDeltaTime s t).1
          (Vec3.add (Mat3.mulVec d.rot_mat d.acc) ⟨0, 0, -(49/5)⟩)))
        (specLegMeasurement d) := by
  obtain ⟨leg_id, h4, hc⟩ := h
  have hne : observedVelocities d ≠ [] := observedVelocities_ne_nil d leg_id h4 hc
  rw [velUpdate_filter_eq, if_neg]
  · rfl
  · simp [List.isEmpty_iff, hne]

theorem update_measurement_is_mean_of_leg_velocities_witness :
    (∃ leg_id, leg_id < 4 ∧ scenarioData.foot_contact leg_id = true) ∧
    (velUpdate scenarioStart (1/100) scenarioData).filter =
      kfUpdate
        (kfPredict scenarioStart.filter
          (Vec3.smul (computeDeltaTime scenarioStart (1/100)).1
            (Vec3.add (Mat3.mulVec scenarioData.rot_mat scenarioData.acc)
              ⟨0, 0, -(49/5)⟩)))
        (specLegMeasurement scenarioData) :=
  ⟨⟨0, by norm_num, rfl⟩,
   update_measurement_is_mean_of_leg_velocities scenarioStart (1/100)
     scenarioData ⟨0, by norm_num, rfl⟩⟩

/-- C2 (counterexample): the claim "calibrated = R·a_sensor − (0, 0, −9.8)"
fails on the code.  With identity attitude, zero accelerometer reading,
no contact and elapsed time 1, the filter velocity after `update` (which,
from the zero state with identity `F` and `B`, equals the control input
fed to the predict step) is `(0, 0, −9.8)`, whereas the claim's formula
prescribes `(0, 0, 9.8)`: the source adds `[0., 0., -9.8]` instead of
subtracting it. -/
theorem calibration_sign_counterexample :
    (velUpdate (mkVEState 1 (1/10) (1/10) (1/10) 120) 1 noContactData).filter.x
        = ⟨0, 0, -(49/5)⟩ ∧
    Vec3.smul (computeDeltaTime (mkVEState 1 (1/10) (1/10) (1/10) 120) 1).1
        (specCalibratedAcc noContactData) = ⟨0, 0, 49/5⟩ ∧
    (⟨0, 0, -(49/5)⟩ : Vec3) ≠ (⟨0, 0, 49/5⟩ : Vec3) := by
  decide

/-- C2 (amended): the control input passed to the Kalman predict step on
every `update(current_time)` call equals `calibrated_acc × elapsed_time`
where `calibrated_acc = R·a_sensor + (0, 0, −9.8)` — the code adds the
downward gravity vector to the rotated accelerometer reading
(equivalently, subtracts the upward gravity-reaction vector `(0,0,9.8)`)
rather than subtracting `(0, 0, −9.8)`. -/
theorem update_control_input_formula (s : VEState) (t : ℚ) (d : SensorData) :
    (velUpdate s t d).filter =
      (if (observedVelocities d).isEmpty then
        kfPredict s.filter (Vec3.smul (computeDeltaTime s t).1
          (Vec3.add (Mat3.mulVec d.rot_mat d.acc) ⟨0, 0, -(49/5)⟩))
      else
        kfUpdate (kfPredict s.filter (Vec3.smul (computeDeltaTime s t).1
          (Vec3.add (Mat3.mulVec d.rot_mat d.acc) ⟨0, 0, -(49/5)⟩)))
          (meanVec (observedVelocities d))) :=
  rfl

/-- C4 (counterexample): "on every subsequent call the elapsed time equals
current_time minus the previous call's timestamp" fails when the previous
call happened at `current_time = 0`: the stored timestamp then equals the
sentinel, so the next call (here at time 5) uses the nominal period
`0.01` instead of `5 − 0 = 5`. -/
theorem delta_time_second_call_counterexample :
    (velUpdate scenarioStart 0 noContactData).last_timestamp = 0 ∧
    (computeDeltaTime (velUpdate scenarioStart 0 noContactData) 5).1 = 1/100 ∧
    ((1 : ℚ)/100) ≠ 5 - 0 := by
  decide

/-- C4 (amended): on a call where the stored timestamp equals the sentinel
`0` (in particular the very first call after construction or `reset()`),
the elapsed time fed to the predict step is the robot's nominal control
period `time_step` — not zero, not `current_time`; on a call whose stored
previous timestamp is nonzero, the elapsed time is `current_time` minus
that timestamp; the current time is always recorded. -/
theorem compute_delta_time_behaviour (s : VEState) (current_time : ℚ) :
    (computeDeltaTime s current_time).2 = current_time ∧
    (s.last_timestamp = 0 →
      (computeDeltaTime s current_time).1 = s.time_step) ∧
    (s.last_timestamp ≠ 0 →
      (computeDeltaTime s current_time).1 = current_time - s.last_timestamp) := by
  unfold computeDeltaTime
  refine ⟨by split <;> rfl, fun h => by rw [if_pos h], fun h => by rw [if_neg h]⟩

theorem compute_delta_time_behaviour_witness :
    (computeDeltaTime scenarioStart 5).1 = scenarioStart.time_step ∧
    (computeDeltaTime { scenarioStart with last_timestamp := 3 } 5).1 = 5 - 3 :=
  ⟨(compute_delta_time_behaviour scenarioStart 5).2.1 rfl,
   (compute_delta_time_behaviour { scenarioStart with last_timestamp := 3 } 5).2.2
     (by decide)⟩

/-- C5: with accelerometer variance 0.1, sensor variance 0.1, initial
covariance 0.1 and window size 120, over 5 ticks with zero calibrated
acceleration and a constant leg-derived measurement `(1, 0, 0)`, the
x-axis smoothed estimate is strictly increasing and bounded above by 1,
while the y and z axes stay exactly 0 in exact rational arithmetic. -/
theorem scenario_smoothed_estimate_increasing_and_bounded :
    mkVelocityEstimator (1/100) (1/10) (1/10) (1/10) 120 = some scenarioStart ∧
    Vec3.add (Mat3.mulVec scenarioData.rot_mat scenarioData.acc) ⟨0, 0, -(49/5)⟩
      = Vec3.zero ∧
    meanVec (observedVelocities scenarioData) = ⟨1, 0, 0⟩ ∧
    scenarioTick1.estimated_velocity.vx < scenarioTick2.estimated_velocity.vx ∧
    scenarioTick2.estimated_velocity.vx < scenarioTick3.estimated_velocity.vx ∧
    scenarioTick3.estimated_velocity.vx < scenarioTick4.estimated_velocity.vx ∧
    scenarioTick4.estimated_velocity.vx < scenarioTick5.estimated_velocity.vx ∧
    scenarioTick5.estimated_velocity.vx < 1 ∧
    scenarioTick1.estimated_velocity.vy = 0 ∧
    scenarioTick1.estimated_velocity.vz = 0 ∧
    scenarioTick2.estimated_velocity.vy = 0 ∧
    scenarioTick2.estimated_velocity.vz = 0 ∧
    scenarioTick3.estimated_velocity.vy = 0 ∧
    scenarioTick3.estimated_velocity.vz = 0 ∧
    scenarioTick4.estimated_velocity.vy = 0 ∧
    scenarioTick4.estimated_velocity.vz = 0 ∧
    scenarioTick5.estimated_velocity.vy = 0 ∧
    scenarioTick5.estimated_velocity.vz = 0 := by
  decide

/-- C6: `reset()` is idempotent and reinstalls the post-construction
state for every component it owns — zero filter velocity, covariance
`I · initial_variance`, fresh (empty) smoothing buffers, sentinel
timestamp — while leaving `Q`, `R`, `H`, `F`, `B` untouched; on a freshly
constructed estimator, `reset()` is the identity. -/
theorem reset_idempotent_matches_construction :
    (∀ s : VEState, 0 < s.window_size →
      reset (reset s) = reset s ∧
      (reset s).filter.x = Vec3.zero ∧
      (reset s).filter.P = Mat3.smulM s.initial_variance Mat3.id ∧
      (reset s).moving_window_filter_x = freshMovingWindowFilter s.window_size ∧
      (reset s).moving_window_filter_y = freshMovingWindowFilter s.window_size ∧
      (reset s).moving_window_filter_z = freshMovingWindowFilter s.window_size ∧
      (reset s).last_timestamp = 0 ∧
      (reset s).filter.Q = s.filter.Q ∧ (reset s).filter.R = s.filter.R ∧
      (reset s).filter.H = s.filter.H ∧ (reset s).filter.F = s.filter.F ∧
      (reset s).filter.B = s.filter.B) ∧
    (∀ (ts av sv iv : ℚ) (w : ℤ) (s0 : VEState),
      mkVelocityEstimator ts av sv iv w = some s0 → reset s0 = s0) := by
  constructor
  · intro s _
    exact ⟨rfl, rfl, rfl, rfl, rfl, rfl, rfl, rfl, rfl, rfl, rfl, rfl⟩
  · intro ts av sv iv w s0 h
    unfold mkVelocityEstimator at h
    split at h
    · exact absurd h (by simp)
    · cases h
      rfl

theorem reset_idempotent_matches_construction_witness :
    (0 : ℤ) < scenarioStart.window_size ∧
    reset (reset scenarioStart) = reset scenarioStart ∧
    reset scenarioStart = scenarioStart :=
  ⟨by decide,
   (reset_idempotent_matches_construction.1 scenarioStart (by decide)).1,
   reset_idempotent_matches_construction.2 (1/100) (1/10) (1/10) (1/10) 120
     scenarioStart rfl⟩

/-- C7 (counterexample): constructing with all three variances equal to
`−1` (non-positive) is not rejected: construction succeeds and returns
the fully initialised estimator state, contradicting the claim that any
non-positive variance is a construction-time failure. -/
theorem construction_accepts_nonpositive_variances :
    mkVelocityEstimator (1/100) (-1) (-1) (-1) 120
      = some (mkVEState (1/100) (-1) (-1) (-1) 120) := by
  decide

/-- C7 (amended): construction validates only the moving-window size — a
non-positive window size is rejected (by the window filter's constructor)
while the variance parameters are accepted unchecked: for any variance
values, a positive window size yields a usable estimator. -/
theorem construction_validates_only_window_size
    (ts av sv iv : ℚ) (w : ℤ) :
    (w ≤ 0 → mkVelocityEstimator ts av sv iv w = none) ∧
    (0 < w → mkVelocityEstimator ts av sv iv w
      = some (mkVEState ts av sv iv w)) := by
  unfold mkVelocityEstimator
  exact ⟨fun h => by rw [if_pos h], fun h => by rw [if_neg (by omega)]⟩

theorem construction_validates_only_window_size_witness :
    mkVelocityEstimator 1 (-1) (-1) (-1) (-5) = none ∧
    mkVelocityEstimator 1 (-1) (-1) (-1) 120
      = some (mkVEState 1 (-1) (-1) (-1) 120) :=
  ⟨(construction_validates_only_window_size 1 (-1) (-1) (-1) (-5)).1 (by decide),
   (construction_validates_only_window_size 1 (-1) (-1) (-1) 120).2 (by decide)⟩

theorem heapRead_append_lt (heap : List Vec3) (x : Vec3) (i : ℕ)
    (hi : i < heap.length) :
    heapRead (heap ++ [x]) i = heapRead heap i := by
  unfold heapRead
  induction heap generalizing i with
  | nil => exact absurd hi (by simp)
  | cons a l ih =>
    cases i with
    | zero => rfl
    | succ n => simpa using ih n (by simpa using hi)

theorem heapRead_append_len (heap : List Vec3) (x : Vec3) :
    heapRead (heap ++ [x]) heap.length = x := by
  unfold heapRead
  induction heap with
  | nil => rfl
  | cons a l ih => simp only [List.cons_append, List.length_cons, List.getD_cons_succ]; exact ih

theorem heapRead_write_ne (heap : List Vec3) (j i : ℕ) (v : Vec3)
    (hne : j ≠ i) :
    heapRead (heapWrite heap j v) i = heapRead heap i := by
  unfold heapRead heapWrite
  induction heap generalizing i j with
  | nil => simp
  | cons a l ih =>
    cases j with
    | zero =>
      cases i with
      | zero => exact absurd rfl hne
      | succ m => rfl
    | succ n =>
      cases i with
      | zero => rfl
      | succ m => simpa using ih n m (by omega)

/-- C8: the `estimated_velocity` accessor returns a fresh copy of the
cached smoothed vector, never an alias of internal storage: the returned
reference differs from every live internal reference, its contents equal
the cached estimate, mutating it leaves every previously allocated cell
(in particular the internal cached estimate) unchanged, and two
successive reads with no intervening update return equal values. -/
theorem estimated_velocity_returns_fresh_copy
    (heap : List Vec3) (r i : ℕ) (v : Vec3)
    (hr : r < heap.length) (hi : i < heap.length) :
    (estimatedVelocityRead heap r).2 ≠ r ∧
    heapRead (estimatedVelocityRead heap r).1 (estimatedVelocityRead heap r).2
      = heapRead heap r ∧
    heapRead (heapWrite (estimatedVelocityRead heap r).1
        (estimatedVelocityRead heap r).2 v) i
      = heapRead heap i ∧
    heapRead (estimatedVelocityRead (estimatedVelocityRead heap r).1 r).1
        (estimatedVelocityRead (estimatedVelocityRead heap r).1 r).2
      = heapRead (estimatedVelocityRead heap r).1
          (estimatedVelocityRead heap r).2 := by
  show heap.length ≠ r ∧
    heapRead (heap ++ [heapRead heap r]) heap.length = heapRead heap r ∧
    heapRead (heapWrite (heap ++ [heapRead heap r]) heap.length v) i
      = heapRead heap i ∧
    heapRead ((heap ++ [heapRead heap r]) ++
        [heapRead (heap ++ [heapRead heap r]) r])
        (heap ++ [heapRead heap r]).length
      = heapRead (heap ++ [heapRead heap r]) heap.length
  refine ⟨by omega, heapRead_append_len heap (heapRead heap r), ?_, ?_⟩
  · calc heapRead (heapWrite (heap ++ [heapRead heap r]) heap.length v) i
        = heapRead (heap ++ [heapRead heap r]) i :=
          heapRead_write_ne _ heap.length i v (by omega)
      _ = heapRead heap i := heapRead_append_lt heap _ i hi
  · calc heapRead ((heap ++ [heapRead heap r]) ++
            [heapRead (heap ++ [heapRead heap r]) r])
            (heap ++ [heapRead heap r]).length
        = heapRead (heap ++ [heapRead heap r]) r :=
          heapRead_append_len _ _
      _ = heapRead heap r := heapRead_append_lt heap _ r hr
      _ = heapRead (heap ++ [heapRead heap r]) heap.length :=
          (heapRead_append_len heap _).symm

theorem estimated_velocity_returns_fresh_copy_witness :
    (0 < [(⟨1, 2, 3⟩ : Vec3)].length ∧ 0 < [(⟨1, 2, 3⟩ : Vec3)].length) ∧
    ((estimatedVelocityRead [(⟨1, 2, 3⟩ : Vec3)] 0).2 ≠ 0 ∧
     heapRead (estimatedVelocityRead [(⟨1, 2, 3⟩ : Vec3)] 0).1
        (estimatedVelocityRead [(⟨1, 2, 3⟩ : Vec3)] 0).2
       = heapRead [(⟨1, 2, 3⟩ : Vec3)] 0 ∧
     heapRead (heapWrite (estimatedVelocityRead [(⟨1, 2, 3⟩ : Vec3)] 0).1
         (estimatedVelocityRead [(⟨1, 2, 3⟩ : Vec3)] 0).2 ⟨7, 7, 7⟩) 0
       = heapRead [(⟨1, 2, 3⟩ : Vec3)] 0 ∧
     heapRead (estimatedVelocityRead
          (estimatedVelocityRead [(⟨1, 2, 3⟩ : Vec3)] 0).1 0).1
        (estimatedVelocityRead
          (estimatedVelocityRead [(⟨1, 2, 3⟩ : Vec3)] 0).1 0).2
       = heapRead (estimatedVelocityRead [(⟨1, 2, 3⟩ : Vec3)] 0).1
           (estimatedVelocityRead [(⟨1, 2, 3⟩ : Vec3)] 0).2) :=
  ⟨⟨by decide, by decide⟩,
   estimated_velocity_returns_fresh_copy [(⟨1, 2, 3⟩ : Vec3)] 0 0 ⟨7, 7, 7⟩
     (by decide) (by decide)⟩
